import Mathlib

/-
  Verification development for the device-management service
  (src/device-management/dal/device_dao.py and
   src/device-management/controllers/device_controller.py).

  The durable store is embedded as an explicit state `St` holding the list
  of device rows in insertion order, the append-only device-log table and
  the list of messages handed to the message-bus publisher.  Each DAO /
  controller function of the source becomes a pure Lean function from the
  state (plus request data and a `now` timestamp for `datetime.utcnow()`)
  to the new state and its return value.  Commits are modelled on their
  success path; the `except` branches of the source roll the session back
  and return the same failure sentinel as the "not found" path, so they
  add no reachable states.
-/

namespace DeviceMgmt

/-- Status enumeration, from `entities.device.DeviceStatus`
    (values as given by the spec: in_stock, reserved, deployed,
    maintenance, retired). -/
inductive DeviceStatus where
  | in_stock
  | reserved
  | deployed
  | maintenance
  | retired
deriving DecidableEq

/-- The `.value` string of a status member. -/
def DeviceStatus.value : DeviceStatus → String
  | .in_stock => "in_stock"
  | .reserved => "reserved"
  | .deployed => "deployed"
  | .maintenance => "maintenance"
  | .retired => "retired"

/-- Type enumeration, from `entities.device.DeviceType`
    (spec: sensor, actuator, gateway, other). -/
inductive DeviceType where
  | sensor
  | actuator
  | gateway
  | other
deriving DecidableEq

/-- A device row.  Timestamps are abstract ticks (`Nat`); nullable columns
    are `Option`s.  `specifications` is kept opaque as a string. -/
structure Device where
  id : Nat
  name : Option String
  type : DeviceType
  serial_number : String
  description : Option String
  location : Option String
  specifications : Option String
  status : DeviceStatus
  purchase_date : Option Nat
  deploy_date : Option Nat
  last_maintenance_date : Option Nat
  created_at : Nat
  updated_at : Nat
deriving DecidableEq

/-- A device-log (audit) row, from `entities.device.DeviceLog` as
    constructed by `DeviceDAO.log_action`. -/
structure DeviceLog where
  device_id : Nat
  action : String
  old_status : Option String
  new_status : Option String
  performed_by : Option Nat
  notes : Option String
deriving DecidableEq

/-- One message handed to the RabbitMQ publisher
    (`publish_telemetry` or `publish_device_event`). -/
structure PubEvent where
  device_id : Nat
  device_name : Option String
  kind : String
deriving DecidableEq

/-- The durable state: device table in insertion order, device-log table,
    published messages, and the next id the store will assign. -/
structure St where
  devices : List Device
  logs : List DeviceLog
  events : List PubEvent
  nextId : Nat
deriving DecidableEq

/-- Python truthiness of an `Optional[str]` value (`None` and `""` are
    falsy), used by the `if warehouse_location:` / `if location:` guards. -/
def optTruthy : Option String → Bool
  | none => false
  | some s => !s.isEmpty

/-- `session.query(Device).filter(Device.id == device_id).one_or_none()`. -/
def getDeviceById (s : St) (i : Nat) : Option Device :=
  s.devices.find? (fun d => d.id == i)

/-- Writing back the mutated row for device `i`. -/
def setDevice (l : List Device) (i : Nat) (d' : Device) : List Device :=
  l.map (fun d => if d.id == i then d' else d)

/-- Modelled from the spec: the Device entity (entities/device.py is not
    under src/) refreshes `updated_at` on every committed mutation
    ("created_at / updated_at: set at creation / every mutation"). -/
def touch (now : Nat) (d : Device) : Device :=
  { d with updated_at := now }

/-- `DeviceDAO.create_device`: check-then-insert on `serial_number`.
    The id assignment is modelled from the spec ("id: unique identifier,
    assigned at creation") since the column default lives in the missing
    entity file. -/
def create_device (s : St) (dev : Device) : St × Bool :=
  if s.devices.any (fun d => d.serial_number == dev.serial_number) then
    (s, false)
  else
    ({ s with
        devices := s.devices ++ [{ dev with id := s.nextId }],
        nextId := s.nextId + 1 },
     true)

/-- Filter predicate of `DeviceDAO.get_all_devices` (status and type
    filters are ANDed when present). -/
def matchesFilter (stf : Option DeviceStatus) (tyf : Option DeviceType)
    (d : Device) : Bool :=
  (match stf with
   | none => true
   | some st => d.status == st) &&
  (match tyf with
   | none => true
   | some ty => d.type == ty)

/-- `DeviceDAO.get_all_devices`: filtered count plus an
    offset/limit window, offset = (page - 1) * page_size. -/
def get_all_devices (s : St) (stf : Option DeviceStatus)
    (tyf : Option DeviceType) (page pageSize : Nat) : List Device × Nat :=
  let q := s.devices.filter (matchesFilter stf tyf)
  let total := q.length
  let offset := (page - 1) * pageSize
  ((q.drop offset).take pageSize, total)

/-- The `setattr` loop body of `DeviceDAO.update_device`: only the four
    `allowed_fields` are assignable; every other key is ignored. -/
def setField (d : Device) (field : String) (v : Option String) : Device :=
  if field = "name" then { d with name := v }
  else if field = "description" then { d with description := v }
  else if field = "location" then { d with location := v }
  else if field = "specifications" then { d with specifications := v }
  else d

/-- `DeviceDAO.update_device` with its `**kwargs` as an ordered
    key/value list. -/
def update_device (s : St) (i : Nat) (kwargs : List (String × Option String))
    (now : Nat) : St × Option Device :=
  match getDeviceById s i with
  | none => (s, none)
  | some d =>
    let d' := touch now (kwargs.foldl (fun acc p => setField acc p.1 p.2) d)
    ({ s with devices := setDevice s.devices i d' }, some d')

/-- `DeviceDAO.update_device_status`: direct status set, optional
    location update (Python truthiness guard). -/
def update_device_status (s : St) (i : Nat) (newStatus : DeviceStatus)
    (loc : Option String) (now : Nat) : St × Option Device :=
  match getDeviceById s i with
  | none => (s, none)
  | some d =>
    let d' := touch now { d with
      status := newStatus,
      location := if optTruthy loc then loc else d.location }
    ({ s with devices := setDevice s.devices i d' }, some d')

/-- `DeviceDAO.delete_device`: soft delete, status set to retired. -/
def delete_device (s : St) (i : Nat) (now : Nat) : St × Bool :=
  match getDeviceById s i with
  | none => (s, false)
  | some d =>
    let d' := touch now { d with status := DeviceStatus.retired }
    ({ s with devices := setDevice s.devices i d' }, true)

/-- `DeviceDAO.deploy_device`: allowed from in_stock, reserved or
    maintenance; sets status, location and deploy_date. -/
def deploy_device (s : St) (i : Nat) (deploymentLocation : String)
    (now : Nat) : St × Option Device :=
  match getDeviceById s i with
  | none => (s, none)
  | some d =>
    if [DeviceStatus.in_stock, DeviceStatus.reserved,
        DeviceStatus.maintenance].contains d.status then
      let d' := touch now { d with
        status := DeviceStatus.deployed,
        location := some deploymentLocation,
        deploy_date := some now }
      ({ s with devices := setDevice s.devices i d' }, some d')
    else
      (s, none)

/-- `DeviceDAO.recall_device`: only from deployed; clears deploy_date,
    optionally sets location. -/
def recall_device (s : St) (i : Nat) (warehouseLocation : Option String)
    (now : Nat) : St × Option Device :=
  match getDeviceById s i with
  | none => (s, none)
  | some d =>
    if d.status == DeviceStatus.deployed then
      let d' := touch now { d with
        status := DeviceStatus.in_stock,
        location := if optTruthy warehouseLocation then warehouseLocation
                    else d.location,
        deploy_date := none }
      ({ s with devices := setDevice s.devices i d' }, some d')
    else
      (s, none)

/-- `DeviceDAO.send_to_maintenance`: no status precondition. -/
def send_to_maintenance (s : St) (i : Nat) (now : Nat) : St × Option Device :=
  match getDeviceById s i with
  | none => (s, none)
  | some d =>
    let d' := touch now { d with
      status := DeviceStatus.maintenance,
      last_maintenance_date := some now }
    ({ s with devices := setDevice s.devices i d' }, some d')

/-- `DeviceDAO.reserve_device`: only from in_stock. -/
def reserve_device (s : St) (i : Nat) (now : Nat) : St × Option Device :=
  match getDeviceById s i with
  | none => (s, none)
  | some d =>
    if d.status == DeviceStatus.in_stock then
      let d' := touch now { d with status := DeviceStatus.reserved }
      ({ s with devices := setDevice s.devices i d' }, some d')
    else
      (s, none)

/-- `DeviceDAO.log_action`: append one immutable log row. -/
def log_action (s : St) (deviceId : Nat) (action : String)
    (oldStatus newStatus : Option String) (performedBy : Option Nat)
    (notes : Option String) : St × Bool :=
  ({ s with logs := s.logs ++
      [⟨deviceId, action, oldStatus, newStatus, performedBy, notes⟩] },
   true)

/-- Handing one message to the RabbitMQ publisher. -/
def publishEvent (s : St) (e : PubEvent) : St :=
  { s with events := s.events ++ [e] }

/-! ## Controller layer (device_controller.py) -/

/-- The error kinds the endpoints raise: 404, 400, 500. -/
inductive ApiError where
  | notFound
  | badRequest
  | internal
deriving DecidableEq

/-- Outcome of an endpoint: its payload or a raised `HTTPException`. -/
inductive ApiResult (α : Type) where
  | ok (a : α)
  | err (e : ApiError)
deriving DecidableEq

/-- Body of `DeviceRequest` (dto/device_dto.py is not under src/; its
    fields are taken from the controller's uses and the spec). -/
structure CreateRequest where
  name : Option String
  type : DeviceType
  serial_number : String
  description : Option String
  location : Option String
  specifications : Option String
deriving DecidableEq

/-- The Device entity built by `create_device` in the controller; the
    unset columns' defaults are modelled from the spec (status starts
    `in_stock`, purchase_date and created_at set at creation). -/
def newDeviceFromRequest (req : CreateRequest) (now : Nat) : Device :=
  { id := 0
    name := req.name
    type := req.type
    serial_number := req.serial_number
    description := req.description
    location := req.location
    specifications := req.specifications
    status := DeviceStatus.in_stock
    purchase_date := some now
    deploy_date := none
    last_maintenance_date := none
    created_at := now
    updated_at := now }

/-- `POST /devices/` — create; 400 when the serial number is taken. -/
def ctrl_create (s : St) (req : CreateRequest) (now : Nat) :
    St × ApiResult Device :=
  let dev := newDeviceFromRequest req now
  match create_device s dev with
  | (s1, true) => (s1, .ok { dev with id := s.nextId })
  | (s1, false) => (s1, .err .badRequest)

/-- Body of `DeviceUpdateRequest` (dto not under src/; all four fields
    optional per the spec's update_fields signature). -/
structure UpdateRequest where
  name : Option String
  description : Option String
  location : Option String
  specifications : Option String
deriving DecidableEq

/-- `PUT /devices/id` — update; forwards all four fields as kwargs and
    writes no audit-log entry. -/
def ctrl_update (s : St) (i : Nat) (req : UpdateRequest) (now : Nat) :
    St × ApiResult Device :=
  match update_device s i
      [("name", req.name), ("description", req.description),
       ("location", req.location), ("specifications", req.specifications)]
      now with
  | (s1, none) => (s1, .err .notFound)
  | (s1, some d) => (s1, .ok d)

/-- `DELETE /devices/id` — retire; writes no audit-log entry. -/
def ctrl_delete (s : St) (i : Nat) (now : Nat) : St × ApiResult Unit :=
  match delete_device s i now with
  | (s1, true) => (s1, .ok ())
  | (s1, false) => (s1, .err .notFound)

/-- `PUT /devices/id/status` — direct status set plus a
    "status_change" log entry. -/
def ctrl_update_status (s : St) (i : Nat) (newStatus : DeviceStatus)
    (loc : Option String) (notes : Option String) (now : Nat) :
    St × ApiResult Device :=
  match getDeviceById s i with
  | none => (s, .err .notFound)
  | some old =>
    match update_device_status s i newStatus loc now with
    | (s1, none) => (s1, .err .badRequest)
    | (s1, some d) =>
      ((log_action s1 i "status_change" (some old.status.value)
          (some newStatus.value) none notes).1,
       .ok d)

/-- `PUT /devices/id/deploy` — deploy plus a "deployed" log entry. -/
def ctrl_deploy (s : St) (i : Nat) (loc : String) (notes : Option String)
    (now : Nat) : St × ApiResult Device :=
  match getDeviceById s i with
  | none => (s, .err .notFound)
  | some old =>
    match deploy_device s i loc now with
    | (s1, none) => (s1, .err .badRequest)
    | (s1, some d) =>
      ((log_action s1 i "deployed" (some old.status.value)
          (some "deployed") none notes).1,
       .ok d)

/-- `PUT /devices/id/recall` — recall plus a "recalled" log entry. -/
def ctrl_recall (s : St) (i : Nat) (loc : Option String)
    (notes : Option String) (now : Nat) : St × ApiResult Device :=
  match getDeviceById s i with
  | none => (s, .err .notFound)
  | some old =>
    match recall_device s i loc now with
    | (s1, none) => (s1, .err .badRequest)
    | (s1, some d) =>
      ((log_action s1 i "recalled" (some old.status.value)
          (some "in_stock") none notes).1,
       .ok d)

/-- `PUT /devices/id/maintenance` — maintenance plus a log entry. -/
def ctrl_maintenance (s : St) (i : Nat) (notes : Option String)
    (now : Nat) : St × ApiResult Device :=
  match getDeviceById s i with
  | none => (s, .err .notFound)
  | some old =>
    match send_to_maintenance s i now with
    | (s1, none) => (s1, .err .badRequest)
    | (s1, some d) =>
      ((log_action s1 i "maintenance" (some old.status.value)
          (some "maintenance") none notes).1,
       .ok d)

/-- `PUT /devices/id/reserve` — reserve plus a "reserved" log entry and
    a `device_reserved` bus message (whose publish result is ignored). -/
def ctrl_reserve (s : St) (i : Nat) (notes : Option String) (now : Nat) :
    St × ApiResult Device :=
  match getDeviceById s i with
  | none => (s, .err .notFound)
  | some old =>
    match reserve_device s i now with
    | (s1, none) => (s1, .err .badRequest)
    | (s1, some d) =>
      let s2 := (log_action s1 i "reserved" (some old.status.value)
          (some "reserved") none notes).1
      (publishEvent s2 ⟨d.id, d.name, "device_reserved"⟩, .ok d)

/-- `POST /devices/telemetry` — 404 when the device is unknown, 400 when
    it is not deployed, otherwise publish (500 when the broker refuses,
    modelled by `pubOk`). -/
def ctrl_receive_telemetry (s : St) (deviceId : Nat) (pubOk : Bool) :
    St × ApiResult Unit :=
  match getDeviceById s deviceId with
  | none => (s, .err .notFound)
  | some d =>
    if d.status == DeviceStatus.deployed then
      let s1 := publishEvent s ⟨d.id, d.name, "telemetry"⟩
      if pubOk then (s1, .ok ()) else (s1, .err .internal)
    else
      (s, .err .badRequest)

/-- `POST /devices/events` — publish unconditionally; the handler takes
    no database session at all. -/
def ctrl_receive_event (s : St) (deviceId : Nat) (eventType : String)
    (pubOk : Bool) : St × ApiResult Unit :=
  let s1 := publishEvent s
      ⟨deviceId, some ("Device-" ++ toString deviceId), eventType⟩
  if pubOk then (s1, .ok ()) else (s1, .err .internal)

/-! ## Operations and reachability -/

/-- One state-mutating call of the DAL or the publisher; every controller
    endpoint's effect on the store is a composition of these. -/
inductive Op where
  | create (dev : Device)
  | update (i : Nat) (kwargs : List (String × Option String)) (now : Nat)
  | setStatus (i : Nat) (st : DeviceStatus) (loc : Option String) (now : Nat)
  | del (i : Nat) (now : Nat)
  | deploy (i : Nat) (loc : String) (now : Nat)
  | recallOp (i : Nat) (loc : Option String) (now : Nat)
  | maintain (i : Nat) (now : Nat)
  | reserve (i : Nat) (now : Nat)
  | logAct (i : Nat) (action : String) (oldSt newSt : Option String)
      (pb : Option Nat) (notes : Option String)
  | publish (e : PubEvent)

/-- Effect of one operation on the store. -/
def applyOp : Op → St → St
  | .create dev, s => (create_device s dev).1
  | .update i kw now, s => (update_device s i kw now).1
  | .setStatus i st loc now, s => (update_device_status s i st loc now).1
  | .del i now, s => (delete_device s i now).1
  | .deploy i loc now, s => (deploy_device s i loc now).1
  | .recallOp i loc now, s => (recall_device s i loc now).1
  | .maintain i now, s => (send_to_maintenance s i now).1
  | .reserve i now, s => (reserve_device s i now).1
  | .logAct i a o n pb nt, s => (log_action s i a o n pb nt).1
  | .publish e, s => publishEvent s e

/-- The empty store the service starts from. -/
def initSt : St := ⟨[], [], [], 1⟩

/-- States reachable from the empty store through the repository's own
    operations. -/
inductive Reachable : St → Prop where
  | init : Reachable initSt
  | step (op : Op) {s : St} : Reachable s → Reachable (applyOp op s)

/-! ## Basic lemmas about the store -/

theorem setDevice_nil (i : Nat) (d' : Device) : setDevice [] i d' = [] := rfl

theorem setDevice_cons (a : Device) (t : List Device) (i : Nat) (d' : Device) :
    setDevice (a :: t) i d' = (if a.id == i then d' else a) :: setDevice t i d' :=
  rfl

/-- Writing back a row whose id occurs nowhere changes nothing. -/
theorem setDevice_eq_of_not_mem (l : List Device) (i : Nat) (d' : Device)
    (h : ∀ x ∈ l, (x.id == i) = false) : setDevice l i d' = l := by
  induction l with
  | nil => rfl
  | cons a t ih =>
    rw [setDevice_cons, if_neg (by simp [h a (List.mem_cons_self a t)])]
    rw [ih (fun x hx => h x (List.mem_cons_of_mem a hx))]

/-- After writing back a row for the id that `find?` located, the lookup
    returns the new row. -/
theorem find?_setDevice (l : List Device) (i : Nat) (d d' : Device)
    (h : l.find? (fun x => x.id == i) = some d) (h' : d'.id = d.id) :
    (setDevice l i d').find? (fun x => x.id == i) = some d' := by
  induction l with
  | nil => simp at h
  | cons a t ih =>
    cases ha : (a.id == i) with
    | true =>
      simp only [List.find?_cons, ha, if_true] at h
      obtain rfl : a = d := by injection h
      have hd' : (d'.id == i) = true := by rw [h']; exact ha
      rw [setDevice_cons, if_pos ha]
      simp only [List.find?_cons, hd', if_true]
    | false =>
      simp only [List.find?_cons, ha, Bool.false_eq_true, if_false] at h
      rw [setDevice_cons, if_neg (by simp [ha])]
      simp only [List.find?_cons, ha, Bool.false_eq_true, if_false]
      exact ih h

/-- When row ids are distinct, writing back a row that agrees with the
    located one on a projection `g` leaves the `g`-image of the table
    unchanged (used with `g` = id and `g` = serial number). -/
theorem map_setDevice {α : Type} (g : Device → α) (l : List Device) (i : Nat)
    (d d' : Device) (hfind : l.find? (fun x => x.id == i) = some d)
    (hnodup : (l.map (fun x => x.id)).Nodup) (hg : g d' = g d) :
    (setDevice l i d').map g = l.map g := by
  induction l with
  | nil => simp at hfind
  | cons a t ih =>
    simp only [List.map_cons, List.nodup_cons] at hnodup
    obtain ⟨hna, hnd⟩ := hnodup
    cases ha : (a.id == i) with
    | true =>
      simp only [List.find?_cons, ha, if_true] at hfind
      obtain rfl : a = d := by injection hfind
      have ht : setDevice t i d' = t := by
        apply setDevice_eq_of_not_mem
        intro x hx
        by_contra hxi
        rw [Bool.not_eq_false] at hxi
        have hxa : x.id = a.id := by
          rw [eq_of_beq hxi, eq_of_beq ha]
        exact hna (hxa ▸ List.mem_map_of_mem (fun y => y.id) hx)
      rw [setDevice_cons, if_pos ha, ht, List.map_cons, List.map_cons, hg]
    | false =>
      simp only [List.find?_cons, ha, Bool.false_eq_true, if_false] at hfind
      rw [setDevice_cons, if_neg (by simp [ha]), List.map_cons,
        List.map_cons, ih hfind hnd]

/-! ## The uniqueness invariant (claim C1) -/

/-- Well-formedness of the store: ids are below the id counter and
    pairwise distinct, and serial numbers are pairwise distinct ("at most
    one Device exists for a given serial_number"). -/
def Inv (s : St) : Prop :=
  (∀ d ∈ s.devices, d.id < s.nextId) ∧
  (s.devices.map (fun d => d.id)).Nodup ∧
  (s.devices.map (fun d => d.serial_number)).Nodup

/-- A write-back of a located row that keeps id and serial number
    preserves the invariant. -/
theorem inv_setDevice (s : St) (i : Nat) (d d' : Device)
    (hfind : getDeviceById s i = some d)
    (hid : d'.id = d.id) (hser : d'.serial_number = d.serial_number)
    (hInv : Inv s) : Inv { s with devices := setDevice s.devices i d' } := by
  obtain ⟨hb, hids, hsers⟩ := hInv
  have hmapid := map_setDevice (fun x => x.id) s.devices i d d' hfind hids hid
  have hmapser :=
    map_setDevice (fun x => x.serial_number) s.devices i d d' hfind hids hser
  refine ⟨?_, ?_, ?_⟩
  · intro x hx
    have hmem : x.id ∈ (setDevice s.devices i d').map (fun y => y.id) :=
      List.mem_map_of_mem (fun y => y.id) hx
    rw [hmapid] at hmem
    obtain ⟨y, hy, hyx⟩ := List.mem_map.mp hmem
    exact hyx ▸ hb y hy
  · show ((setDevice s.devices i d').map (fun y => y.id)).Nodup
    rw [hmapid]; exact hids
  · show ((setDevice s.devices i d').map (fun y => y.serial_number)).Nodup
    rw [hmapser]; exact hsers

/-- `setField` never touches the id column. -/
theorem setField_id (d : Device) (f : String) (v : Option String) :
    (setField d f v).id = d.id := by
  unfold setField; split_ifs <;> rfl

/-- `setField` never touches the serial-number column. -/
theorem setField_serial (d : Device) (f : String) (v : Option String) :
    (setField d f v).serial_number = d.serial_number := by
  unfold setField; split_ifs <;> rfl

/-- The kwargs loop of `update_device` never touches the id column. -/
theorem foldSetFields_id (kw : List (String × Option String)) :
    ∀ d : Device, (kw.foldl (fun acc p => setField acc p.1 p.2) d).id = d.id := by
  induction kw with
  | nil => intro d; rfl
  | cons p t ih =>
    intro d
    rw [List.foldl_cons, ih (setField d p.1 p.2), setField_id]

/-- The kwargs loop of `update_device` never touches the serial number. -/
theorem foldSetFields_serial (kw : List (String × Option String)) :
    ∀ d : Device,
      (kw.foldl (fun acc p => setField acc p.1 p.2) d).serial_number =
        d.serial_number := by
  induction kw with
  | nil => intro d; rfl
  | cons p t ih =>
    intro d
    rw [List.foldl_cons, ih (setField d p.1 p.2), setField_serial]

/-- Creation preserves the invariant: the duplicate-serial guard refuses
    any serial number already present, and the fresh row gets a fresh id. -/
theorem inv_create (s : St) (dev : Device) (h : Inv s) :
    Inv (create_device s dev).1 := by
  obtain ⟨hb, hids, hsers⟩ := h
  by_cases hc :
      s.devices.any (fun d => d.serial_number == dev.serial_number) = true
  · simpa [create_device, hc] using ⟨hb, hids, hsers⟩
  · rw [Bool.not_eq_true] at hc
    simp only [create_device, hc, Bool.false_eq_true, if_false]
    refine ⟨?_, ?_, ?_⟩
    · intro x hx
      rcases List.mem_append.mp hx with hx | hx
      · exact Nat.lt_succ_of_lt (hb x hx)
      · simp only [List.mem_singleton] at hx
        subst hx
        exact Nat.lt_succ_self _
    · rw [List.map_append]
      rw [List.nodup_append]
      refine ⟨hids, List.nodup_singleton _, ?_⟩
      intro x hx hx'
      simp only [List.map_cons, List.map_nil, List.mem_singleton] at hx'
      obtain ⟨y, hy, hyx⟩ := List.mem_map.mp hx
      subst hx'
      have := hb y hy
      omega
    · rw [List.map_append]
      rw [List.nodup_append]
      refine ⟨hsers, List.nodup_singleton _, ?_⟩
      intro x hx hx'
      simp only [List.map_cons, List.map_nil, List.mem_singleton] at hx'
      obtain ⟨y, hy, hyx⟩ := List.mem_map.mp hx
      have hall := List.any_eq_false.mp hc y hy
      apply hall
      subst hx'
      simp only [hyx]
      exact beq_self_eq_true _

/-- Every repository operation preserves the invariant: the guarded
    create is the only insertion, and every write-back keeps the row's id
    and serial number. -/
theorem inv_applyOp (op : Op) (s : St) (h : Inv s) : Inv (applyOp op s) := by
  cases op with
  | create dev => exact inv_create s dev h
  | update i kw now =>
    cases hf : getDeviceById s i with
    | none => simpa [applyOp, update_device, hf] using h
    | some d =>
      simp only [applyOp, update_device, hf]
      exact inv_setDevice s i d _ hf (foldSetFields_id kw d)
        (foldSetFields_serial kw d) h
  | setStatus i st loc now =>
    cases hf : getDeviceById s i with
    | none => simpa [applyOp, update_device_status, hf] using h
    | some d =>
      simp only [applyOp, update_device_status, hf]
      exact inv_setDevice s i d _ hf rfl rfl h
  | del i now =>
    cases hf : getDeviceById s i with
    | none => simpa [applyOp, delete_device, hf] using h
    | some d =>
      simp only [applyOp, delete_device, hf]
      exact inv_setDevice s i d _ hf rfl rfl h
  | deploy i loc now =>
    cases hf : getDeviceById s i with
    | none => simpa [applyOp, deploy_device, hf] using h
    | some d =>
      cases hc : [DeviceStatus.in_stock, DeviceStatus.reserved,
          DeviceStatus.maintenance].contains d.status with
      | true =>
        simp only [applyOp, deploy_device, hf, hc, if_true]
        exact inv_setDevice s i d _ hf rfl rfl h
      | false =>
        simp only [applyOp, deploy_device, hf, hc, Bool.false_eq_true,
          if_false]
        exact h
  | recallOp i loc now =>
    cases hf : getDeviceById s i with
    | none => simpa [applyOp, recall_device, hf] using h
    | some d =>
      cases hc : d.status == DeviceStatus.deployed with
      | true =>
        simp only [applyOp, recall_device, hf, hc, if_true]
        exact inv_setDevice s i d _ hf rfl rfl h
      | false =>
        simp only [applyOp, recall_device, hf, hc, Bool.false_eq_true,
          if_false]
        exact h
  | maintain i now =>
    cases hf : getDeviceById s i with
    | none => simpa [applyOp, send_to_maintenance, hf] using h
    | some d =>
      simp only [applyOp, send_to_maintenance, hf]
      exact inv_setDevice s i d _ hf rfl rfl h
  | reserve i now =>
    cases hf : getDeviceById s i with
    | none => simpa [applyOp, reserve_device, hf] using h
    | some d =>
      cases hc : d.status == DeviceStatus.in_stock with
      | true =>
        simp only [applyOp, reserve_device, hf, hc, if_true]
        exact inv_setDevice s i d _ hf rfl rfl h
      | false =>
        simp only [applyOp, reserve_device, hf, hc, Bool.false_eq_true,
          if_false]
        exact h
  | logAct i a o n pb nt => exact h
  | publish e => exact h

/-- The invariant holds at every reachable store. -/
theorem inv_reachable {s : St} (h : Reachable s) : Inv s := by
  induction h with
  | init => exact ⟨by simp [initSt], by simp [initSt], by simp [initSt]⟩
  | step op h ih => exact inv_applyOp op _ ih

/-! ## Concrete sample store used by the witnesses -/

/-- A sample stored device. -/
def devA : Device :=
  ⟨1, some "A", DeviceType.sensor, "SN-1", none, none, none,
   DeviceStatus.in_stock, some 0, none, none, 0, 0⟩

/-- A store holding just `devA`, no logs, no published messages. -/
def stA : St := ⟨[devA], [], [], 2⟩

/-! ## Claims -/

/-- Claim C1: a create request whose serial number equals the serial
    number of a stored device fails with the duplicate-serial error
    (HTTP 400) and leaves the store — in particular the set of stored
    devices — unchanged; and every store reachable through the
    repository's operations has pairwise-distinct serial numbers, i.e.
    at most one device per serial_number. -/
theorem claim_C1 :
    (∀ (s : St) (req : CreateRequest) (now : Nat),
        (∃ d0 ∈ s.devices, d0.serial_number = req.serial_number) →
        ctrl_create s req now = (s, ApiResult.err ApiError.badRequest)) ∧
    (∀ s : St, Reachable s →
        (s.devices.map (fun d => d.serial_number)).Nodup) := by
  constructor
  · rintro s req now ⟨d0, hd0, hser⟩
    have hc : s.devices.any
        (fun d => d.serial_number ==
          (newDeviceFromRequest req now).serial_number) = true := by
      apply List.any_eq_true.mpr
      refine ⟨d0, hd0, ?_⟩
      simp [newDeviceFromRequest, hser]
    simp [ctrl_create, create_device, hc]
  · intro s h
    exact (inv_reachable h).2.2

/-- Witness for C1 at a concrete store: creating a second "SN-1" device
    over `stA` fails with 400 and changes nothing, and the initial store
    trivially has distinct serial numbers. -/
theorem claim_C1_witness :
    ctrl_create stA ⟨some "B", DeviceType.sensor, "SN-1", none, none, none⟩ 7 =
      (stA, ApiResult.err ApiError.badRequest) ∧
    (initSt.devices.map (fun d => d.serial_number)).Nodup :=
  ⟨claim_C1.1 stA ⟨some "B", DeviceType.sensor, "SN-1", none, none, none⟩ 7
      ⟨devA, by decide, by decide⟩,
   claim_C1.2 initSt Reachable.init⟩

/-- The row written by a successful reserve: only the status column (and
    the `updated_at` bookkeeping column) changes. -/
def reserveRow (d : Device) (now : Nat) : Device :=
  { d with status := DeviceStatus.reserved, updated_at := now }

/-- The row written by a successful deploy: status, location, deploy_date
    (and `updated_at`). -/
def deployRow (d : Device) (loc : String) (now : Nat) : Device :=
  { d with
      status := DeviceStatus.deployed, location := some loc,
      deploy_date := some now, updated_at := now }

/-- The row written by a successful recall: status back to in_stock,
    deploy_date cleared, location optionally replaced (and `updated_at`). -/
def recallRow (d : Device) (loc : Option String) (now : Nat) : Device :=
  { d with
      status := DeviceStatus.in_stock,
      location := if optTruthy loc then loc else d.location,
      deploy_date := none, updated_at := now }

/-- The row written by send_to_maintenance: status and
    last_maintenance_date (and `updated_at`). -/
def maintRow (d : Device) (now : Nat) : Device :=
  { d with
      status := DeviceStatus.maintenance,
      last_maintenance_date := some now, updated_at := now }

/-- The row written by delete (retire): only the status column (and
    `updated_at`). -/
def retireRow (d : Device) (now : Nat) : Device :=
  { d with status := DeviceStatus.retired, updated_at := now }

/-- What a successful reserve call does to the store and returns. -/
theorem ctrl_reserve_success (s : St) (i now : Nat) (notes : Option String)
    (d : Device) (h : getDeviceById s i = some d)
    (hst : d.status = DeviceStatus.in_stock) :
    (ctrl_reserve s i notes now).2 = ApiResult.ok (reserveRow d now) ∧
    (ctrl_reserve s i notes now).1.devices =
      setDevice s.devices i (reserveRow d now) ∧
    (ctrl_reserve s i notes now).1.logs = s.logs ++
      [⟨i, "reserved", some d.status.value, some "reserved", none, notes⟩] ∧
    (ctrl_reserve s i notes now).1.events = s.events ++
      [⟨d.id, d.name, "device_reserved"⟩] ∧
    (ctrl_reserve s i notes now).1.nextId = s.nextId := by
  have hb : (d.status == DeviceStatus.in_stock) = true := by
    simp [hst]
  refine ⟨?_, ?_, ?_, ?_, ?_⟩ <;>
    simp [ctrl_reserve, reserve_device, h, hb, touch, reserveRow,
      log_action, publishEvent]

/-- A failed reserve call (status not in_stock) raises 400 and leaves the
    store unchanged. -/
theorem ctrl_reserve_failure (s : St) (i now : Nat) (notes : Option String)
    (d : Device) (h : getDeviceById s i = some d)
    (hst : d.status ≠ DeviceStatus.in_stock) :
    ctrl_reserve s i notes now = (s, ApiResult.err ApiError.badRequest) := by
  have hb : (d.status == DeviceStatus.in_stock) = false := by
    simpa using hst
  simp [ctrl_reserve, reserve_device, h, hb]

/-- Claim C2: for an existing device, reserve succeeds iff its status is
    in_stock; on success the row only changes status (to reserved) and
    the updated_at bookkeeping column; reserving again right away fails
    with the illegal-transition error (HTTP 400) because the status is
    then reserved. -/
theorem claim_C2 (s : St) (i now : Nat) (notes : Option String) (d : Device)
    (h : getDeviceById s i = some d) :
    ((∃ d', (ctrl_reserve s i notes now).2 = ApiResult.ok d') ↔
      d.status = DeviceStatus.in_stock) ∧
    (d.status = DeviceStatus.in_stock →
      (ctrl_reserve s i notes now).2 = ApiResult.ok (reserveRow d now) ∧
      getDeviceById (ctrl_reserve s i notes now).1 i =
        some (reserveRow d now) ∧
      ∀ (notes2 : Option String) (now2 : Nat),
        (ctrl_reserve (ctrl_reserve s i notes now).1 i notes2 now2).2 =
          ApiResult.err ApiError.badRequest) ∧
    (d.status ≠ DeviceStatus.in_stock →
      ctrl_reserve s i notes now = (s, ApiResult.err ApiError.badRequest)) := by
  have main : d.status = DeviceStatus.in_stock →
      (ctrl_reserve s i notes now).2 = ApiResult.ok (reserveRow d now) ∧
      getDeviceById (ctrl_reserve s i notes now).1 i =
        some (reserveRow d now) ∧
      ∀ (notes2 : Option String) (now2 : Nat),
        (ctrl_reserve (ctrl_reserve s i notes now).1 i notes2 now2).2 =
          ApiResult.err ApiError.badRequest := by
    intro hst
    obtain ⟨hres, hdev, -, -, -⟩ := ctrl_reserve_success s i now notes d h hst
    have hfind : getDeviceById (ctrl_reserve s i notes now).1 i =
        some (reserveRow d now) := by
      rw [getDeviceById, hdev]
      exact find?_setDevice s.devices i d _ h rfl
    refine ⟨hres, hfind, ?_⟩
    intro notes2 now2
    have hne : (reserveRow d now).status ≠ DeviceStatus.in_stock := by
      simp [reserveRow]
    rw [ctrl_reserve_failure _ i now2 notes2 _ hfind hne]
  refine ⟨?_, main, fun hst => ctrl_reserve_failure s i now notes d h hst⟩
  constructor
  · rintro ⟨d', hd'⟩
    by_contra hst
    rw [ctrl_reserve_failure s i now notes d h hst] at hd'
    exact ApiResult.noConfusion hd'
  · intro hst
    exact ⟨_, (main hst).1⟩

/-- Witness for C2 at `stA`: the device is in stock, so the first
    reserve succeeds and the second fails with 400. -/
theorem claim_C2_witness :
    ((∃ d', (ctrl_reserve stA 1 none 3).2 = ApiResult.ok d') ↔
      devA.status = DeviceStatus.in_stock) ∧
    (devA.status = DeviceStatus.in_stock →
      (ctrl_reserve stA 1 none 3).2 = ApiResult.ok (reserveRow devA 3) ∧
      getDeviceById (ctrl_reserve stA 1 none 3).1 1 =
        some (reserveRow devA 3) ∧
      ∀ (notes2 : Option String) (now2 : Nat),
        (ctrl_reserve (ctrl_reserve stA 1 none 3).1 1 notes2 now2).2 =
          ApiResult.err ApiError.badRequest) ∧
    (devA.status ≠ DeviceStatus.in_stock →
      ctrl_reserve stA 1 none 3 = (stA, ApiResult.err ApiError.badRequest)) :=
  claim_C2 stA 1 3 none devA (by decide)

/-- The allowed-source set of deploy, as a proposition. -/
def DeployAllowed (st : DeviceStatus) : Prop :=
  st = DeviceStatus.in_stock ∨ st = DeviceStatus.reserved ∨
    st = DeviceStatus.maintenance

instance (st : DeviceStatus) : Decidable (DeployAllowed st) := by
  unfold DeployAllowed; infer_instance

/-- What a successful deploy call does to the store and returns. -/
theorem ctrl_deploy_success (s : St) (i now : Nat) (loc : String)
    (notes : Option String) (d : Device) (h : getDeviceById s i = some d)
    (hst : DeployAllowed d.status) :
    (ctrl_deploy s i loc notes now).2 = ApiResult.ok (deployRow d loc now) ∧
    (ctrl_deploy s i loc notes now).1.devices =
      setDevice s.devices i (deployRow d loc now) ∧
    (ctrl_deploy s i loc notes now).1.logs = s.logs ++
      [⟨i, "deployed", some d.status.value, some "deployed", none, notes⟩] ∧
    (ctrl_deploy s i loc notes now).1.events = s.events ∧
    (ctrl_deploy s i loc notes now).1.nextId = s.nextId := by
  have hst' : d.status = DeviceStatus.in_stock ∨
      d.status = DeviceStatus.reserved ∨
      d.status = DeviceStatus.maintenance := hst
  refine ⟨?_, ?_, ?_, ?_, ?_⟩ <;>
    simp [ctrl_deploy, deploy_device, h, hst', touch, deployRow, log_action]

/-- A deploy from deployed or retired raises 400 and leaves the store
    unchanged. -/
theorem ctrl_deploy_failure (s : St) (i now : Nat) (loc : String)
    (notes : Option String) (d : Device) (h : getDeviceById s i = some d)
    (hst : ¬DeployAllowed d.status) :
    ctrl_deploy s i loc notes now = (s, ApiResult.err ApiError.badRequest) := by
  have hst' : ¬(d.status = DeviceStatus.in_stock ∨
      d.status = DeviceStatus.reserved ∨
      d.status = DeviceStatus.maintenance) := hst
  simp [ctrl_deploy, deploy_device, h, hst']

/-- Claim C3: for an existing device, deploy succeeds iff its status is
    in_stock, reserved or maintenance; on success the row gets status
    deployed, the requested location and its deploy_date set; from any
    other status (deployed, retired) the call fails with 400 and the
    store is unchanged. -/
theorem claim_C3 (s : St) (i now : Nat) (loc : String)
    (notes : Option String) (d : Device) (h : getDeviceById s i = some d) :
    ((∃ d', (ctrl_deploy s i loc notes now).2 = ApiResult.ok d') ↔
      DeployAllowed d.status) ∧
    (DeployAllowed d.status →
      (ctrl_deploy s i loc notes now).2 = ApiResult.ok (deployRow d loc now) ∧
      getDeviceById (ctrl_deploy s i loc notes now).1 i =
        some (deployRow d loc now)) ∧
    (¬DeployAllowed d.status →
      ctrl_deploy s i loc notes now = (s, ApiResult.err ApiError.badRequest)) := by
  have main : DeployAllowed d.status →
      (ctrl_deploy s i loc notes now).2 = ApiResult.ok (deployRow d loc now) ∧
      getDeviceById (ctrl_deploy s i loc notes now).1 i =
        some (deployRow d loc now) := by
    intro hst
    obtain ⟨hres, hdev, -, -, -⟩ := ctrl_deploy_success s i now loc notes d h hst
    refine ⟨hres, ?_⟩
    rw [getDeviceById, hdev]
    exact find?_setDevice s.devices i d _ h rfl
  refine ⟨?_, main, fun hst => ctrl_deploy_failure s i now loc notes d h hst⟩
  constructor
  · rintro ⟨d', hd'⟩
    by_contra hst
    rw [ctrl_deploy_failure s i now loc notes d h hst] at hd'
    exact ApiResult.noConfusion hd'
  · intro hst
    exact ⟨_, (main hst).1⟩

/-- Witness for C3 at `stA` (in stock, so deploy is allowed). -/
theorem claim_C3_witness :
    ((∃ d', (ctrl_deploy stA 1 "W" none 4).2 = ApiResult.ok d') ↔
      DeployAllowed devA.status) ∧
    (DeployAllowed devA.status →
      (ctrl_deploy stA 1 "W" none 4).2 = ApiResult.ok (deployRow devA "W" 4) ∧
      getDeviceById (ctrl_deploy stA 1 "W" none 4).1 1 =
        some (deployRow devA "W" 4)) ∧
    (¬DeployAllowed devA.status →
      ctrl_deploy stA 1 "W" none 4 = (stA, ApiResult.err ApiError.badRequest)) :=
  claim_C3 stA 1 4 "W" none devA (by decide)

/-- What a successful recall call does to the store and returns. -/
theorem ctrl_recall_success (s : St) (i now : Nat) (loc : Option String)
    (notes : Option String) (d : Device) (h : getDeviceById s i = some d)
    (hst : d.status = DeviceStatus.deployed) :
    (ctrl_recall s i loc notes now).2 = ApiResult.ok (recallRow d loc now) ∧
    (ctrl_recall s i loc notes now).1.devices =
      setDevice s.devices i (recallRow d loc now) ∧
    (ctrl_recall s i loc notes now).1.logs = s.logs ++
      [⟨i, "recalled", some d.status.value, some "in_stock", none, notes⟩] ∧
    (ctrl_recall s i loc notes now).1.events = s.events ∧
    (ctrl_recall s i loc notes now).1.nextId = s.nextId := by
  have hb : (d.status == DeviceStatus.deployed) = true := by simp [hst]
  refine ⟨?_, ?_, ?_, ?_, ?_⟩ <;>
    simp [ctrl_recall, recall_device, h, hb, touch, recallRow, log_action]

/-- Claim C4: a device in stock, deployed to a location and then
    recalled, ends in_stock with deploy_date cleared, and the audit rows
    for that device are exactly the "deployed" and "recalled" entries
    with old/new status pairs (in_stock, deployed) and
    (deployed, in_stock), in that order. -/
theorem claim_C4 (s : St) (i t1 t2 : Nat) (loc : String)
    (n1 n2 : Option String) (d : Device)
    (h : getDeviceById s i = some d)
    (hst : d.status = DeviceStatus.in_stock)
    (hlogs : s.logs.filter (fun lg => lg.device_id == i) = []) :
    ∃ d2, (ctrl_recall (ctrl_deploy s i loc n1 t1).1 i none n2 t2).2 =
        ApiResult.ok d2 ∧
      d2.status = DeviceStatus.in_stock ∧
      d2.deploy_date = none ∧
      ((ctrl_recall (ctrl_deploy s i loc n1 t1).1 i none n2 t2).1.logs.filter
          (fun lg => lg.device_id == i)) =
        [⟨i, "deployed", some "in_stock", some "deployed", none, n1⟩,
         ⟨i, "recalled", some "deployed", some "in_stock", none, n2⟩] := by
  obtain ⟨-, hdev1, hlog1, -, -⟩ :=
    ctrl_deploy_success s i t1 loc n1 d h (Or.inl hst)
  have hfind1 : getDeviceById (ctrl_deploy s i loc n1 t1).1 i =
      some (deployRow d loc t1) := by
    rw [getDeviceById, hdev1]
    exact find?_setDevice s.devices i d _ h rfl
  obtain ⟨hres2, -, hlog2, -, -⟩ :=
    ctrl_recall_success (ctrl_deploy s i loc n1 t1).1 i t2 none n2
      (deployRow d loc t1) hfind1 rfl
  refine ⟨recallRow (deployRow d loc t1) none t2, hres2, rfl, rfl, ?_⟩
  rw [hlog2, hlog1, List.filter_append, List.filter_append, hlogs]
  have hv : (deployRow d loc t1).status.value = "deployed" := rfl
  rw [hv, hst]
  simp [DeviceStatus.value]

/-- Witness for C4 at `stA`. -/
theorem claim_C4_witness :
    ∃ d2, (ctrl_recall (ctrl_deploy stA 1 "L1" none 4).1 1 none none 5).2 =
        ApiResult.ok d2 ∧
      d2.status = DeviceStatus.in_stock ∧
      d2.deploy_date = none ∧
      ((ctrl_recall (ctrl_deploy stA 1 "L1" none 4).1 1 none none
          5).1.logs.filter (fun lg => lg.device_id == 1)) =
        [⟨1, "deployed", some "in_stock", some "deployed", none, none⟩,
         ⟨1, "recalled", some "deployed", some "in_stock", none, none⟩] :=
  claim_C4 stA 1 4 5 "L1" none none devA (by decide) (by decide) (by decide)

/-- What a send-to-maintenance call does for an existing device: it
    always succeeds, whatever the current status. -/
theorem ctrl_maintenance_success (s : St) (i now : Nat)
    (notes : Option String) (d : Device) (h : getDeviceById s i = some d) :
    (ctrl_maintenance s i notes now).2 = ApiResult.ok (maintRow d now) ∧
    (ctrl_maintenance s i notes now).1.devices =
      setDevice s.devices i (maintRow d now) ∧
    (ctrl_maintenance s i notes now).1.logs = s.logs ++
      [⟨i, "maintenance", some d.status.value, some "maintenance", none,
        notes⟩] ∧
    (ctrl_maintenance s i notes now).1.events = s.events ∧
    (ctrl_maintenance s i notes now).1.nextId = s.nextId := by
  refine ⟨?_, ?_, ?_, ?_, ?_⟩ <;>
    simp [ctrl_maintenance, send_to_maintenance, h, touch, maintRow,
      log_action]

/-- What a delete (retire) call does for an existing device: it always
    succeeds and writes only the status column back (no audit row). -/
theorem ctrl_delete_eq (s : St) (i now : Nat) (d : Device)
    (h : getDeviceById s i = some d) :
    ctrl_delete s i now =
      ({ s with devices := setDevice s.devices i (retireRow d now) },
       ApiResult.ok ()) := by
  simp [ctrl_delete, delete_device, h, touch, retireRow]

/-- Claim C5: for an existing device of any current status (retired
    included), send_to_maintenance succeeds, setting status maintenance
    and last_maintenance_date; and delete (retire) succeeds, setting
    status retired without erasing the row — it stays retrievable by id
    with status retired. -/
theorem claim_C5 (s : St) (i now now' : Nat) (notes : Option String)
    (d : Device) (h : getDeviceById s i = some d) :
    ((ctrl_maintenance s i notes now).2 = ApiResult.ok (maintRow d now) ∧
      getDeviceById (ctrl_maintenance s i notes now).1 i =
        some (maintRow d now)) ∧
    ((ctrl_delete s i now').2 = ApiResult.ok () ∧
      getDeviceById (ctrl_delete s i now').1 i = some (retireRow d now')) := by
  obtain ⟨hres, hdev, -, -, -⟩ := ctrl_maintenance_success s i now notes d h
  refine ⟨⟨hres, ?_⟩, ?_, ?_⟩
  · rw [getDeviceById, hdev]
    exact find?_setDevice s.devices i d _ h rfl
  · rw [ctrl_delete_eq s i now' d h]
  · rw [ctrl_delete_eq s i now' d h]
    show (setDevice s.devices i (retireRow d now')).find?
      (fun x => x.id == i) = _
    exact find?_setDevice s.devices i d _ h rfl

/-- A store holding one already-retired device. -/
def stR : St := ⟨[{ devA with status := DeviceStatus.retired }], [], [], 2⟩

/-- Witness for C5 on an already-retired device: both maintenance and a
    second retire still succeed. -/
theorem claim_C5_witness :
    ((ctrl_maintenance stR 1 none 5).2 =
        ApiResult.ok (maintRow { devA with status := DeviceStatus.retired } 5) ∧
      getDeviceById (ctrl_maintenance stR 1 none 5).1 1 =
        some (maintRow { devA with status := DeviceStatus.retired } 5)) ∧
    ((ctrl_delete stR 1 6).2 = ApiResult.ok () ∧
      getDeviceById (ctrl_delete stR 1 6).1 1 =
        some (retireRow { devA with status := DeviceStatus.retired } 6)) :=
  claim_C5 stR 1 5 6 none { devA with status := DeviceStatus.retired }
    (by decide)

/-- The row written by the direct status set: requested status, optional
    location (and `updated_at`). -/
def statusRow (d : Device) (newStatus : DeviceStatus) (loc : Option String)
    (now : Nat) : Device :=
  { d with
      status := newStatus,
      location := if optTruthy loc then loc else d.location,
      updated_at := now }

/-- What a direct status-set call does for an existing device: it always
    succeeds and logs a "status_change" row. -/
theorem ctrl_update_status_success (s : St) (i now : Nat)
    (newStatus : DeviceStatus) (loc : Option String) (notes : Option String)
    (d : Device) (h : getDeviceById s i = some d) :
    (ctrl_update_status s i newStatus loc notes now).2 =
      ApiResult.ok (statusRow d newStatus loc now) ∧
    (ctrl_update_status s i newStatus loc notes now).1.devices =
      setDevice s.devices i (statusRow d newStatus loc now) ∧
    (ctrl_update_status s i newStatus loc notes now).1.logs = s.logs ++
      [⟨i, "status_change", some d.status.value, some newStatus.value, none,
        notes⟩] ∧
    (ctrl_update_status s i newStatus loc notes now).1.events = s.events := by
  refine ⟨?_, ?_, ?_, ?_⟩ <;>
    simp [ctrl_update_status, update_device_status, h, touch, statusRow,
      log_action]

/-- A recall from a non-deployed status raises 400 and leaves the store
    unchanged. -/
theorem ctrl_recall_failure (s : St) (i now : Nat) (loc : Option String)
    (notes : Option String) (d : Device) (h : getDeviceById s i = some d)
    (hst : d.status ≠ DeviceStatus.deployed) :
    ctrl_recall s i loc notes now = (s, ApiResult.err ApiError.badRequest) := by
  have hb : (d.status == DeviceStatus.deployed) = false := by simpa using hst
  simp [ctrl_recall, recall_device, h, hb]

/-- Counterexample to claim C6 as stated: the delete (retire) endpoint
    mutates the stored device — its status and its updated_at column
    change — yet writes no Audit Log entry at all. -/
theorem claim_C6_counterexample :
    (ctrl_delete stA 1 9).2 = ApiResult.ok () ∧
    (ctrl_delete stA 1 9).1.devices ≠ stA.devices ∧
    getDeviceById (ctrl_delete stA 1 9).1 1 = some (retireRow devA 9) ∧
    (retireRow devA 9).updated_at ≠ devA.updated_at ∧
    (ctrl_delete stA 1 9).1.logs = [] := by
  decide

/-- Claim C6 as amended: after any repository operation every stored
    status is still a member of the enumerated set; the deploy, recall,
    reserve, send-to-maintenance and direct-status-set endpoints each
    append one matching Audit Log entry on success; but the delete
    (retire) endpoint and the field-update endpoint mutate the device
    without appending any log entry. -/
theorem claim_C6_amended :
    (∀ (op : Op) (s : St), ∀ d ∈ (applyOp op s).devices,
        d.status ∈ [DeviceStatus.in_stock, DeviceStatus.reserved,
          DeviceStatus.deployed, DeviceStatus.maintenance,
          DeviceStatus.retired]) ∧
    (∀ (s : St) (i : Nat) (loc : String) (notes : Option String) (now : Nat)
        (d' : Device), (ctrl_deploy s i loc notes now).2 = ApiResult.ok d' →
        ∃ old, (ctrl_deploy s i loc notes now).1.logs = s.logs ++
          [⟨i, "deployed", some old, some "deployed", none, notes⟩]) ∧
    (∀ (s : St) (i : Nat) (loc : Option String) (notes : Option String)
        (now : Nat) (d' : Device),
        (ctrl_recall s i loc notes now).2 = ApiResult.ok d' →
        ∃ old, (ctrl_recall s i loc notes now).1.logs = s.logs ++
          [⟨i, "recalled", some old, some "in_stock", none, notes⟩]) ∧
    (∀ (s : St) (i : Nat) (notes : Option String) (now : Nat) (d' : Device),
        (ctrl_reserve s i notes now).2 = ApiResult.ok d' →
        ∃ old, (ctrl_reserve s i notes now).1.logs = s.logs ++
          [⟨i, "reserved", some old, some "reserved", none, notes⟩]) ∧
    (∀ (s : St) (i : Nat) (notes : Option String) (now : Nat) (d' : Device),
        (ctrl_maintenance s i notes now).2 = ApiResult.ok d' →
        ∃ old, (ctrl_maintenance s i notes now).1.logs = s.logs ++
          [⟨i, "maintenance", some old, some "maintenance", none, notes⟩]) ∧
    (∀ (s : St) (i : Nat) (newStatus : DeviceStatus) (loc : Option String)
        (notes : Option String) (now : Nat) (d' : Device),
        (ctrl_update_status s i newStatus loc notes now).2 =
          ApiResult.ok d' →
        ∃ old, (ctrl_update_status s i newStatus loc notes now).1.logs =
          s.logs ++ [⟨i, "status_change", some old, some newStatus.value,
            none, notes⟩]) ∧
    (∀ (s : St) (i now : Nat), (ctrl_delete s i now).1.logs = s.logs) ∧
    (∀ (s : St) (i : Nat) (req : UpdateRequest) (now : Nat),
        (ctrl_update s i req now).1.logs = s.logs) := by
  refine ⟨?_, ?_, ?_, ?_, ?_, ?_, ?_, ?_⟩
  · intro op s d hd
    cases hs : d.status <;> simp [hs]
  · intro s i loc notes now d' hr
    cases hf : getDeviceById s i with
    | none => simp [ctrl_deploy, hf] at hr
    | some d =>
      by_cases hal : DeployAllowed d.status
      · obtain ⟨-, -, hlog, -, -⟩ := ctrl_deploy_success s i now loc notes d hf hal
        exact ⟨d.status.value, hlog⟩
      · rw [ctrl_deploy_failure s i now loc notes d hf hal] at hr
        exact ApiResult.noConfusion hr
  · intro s i loc notes now d' hr
    cases hf : getDeviceById s i with
    | none => simp [ctrl_recall, hf] at hr
    | some d =>
      by_cases hal : d.status = DeviceStatus.deployed
      · obtain ⟨-, -, hlog, -, -⟩ := ctrl_recall_success s i now loc notes d hf hal
        exact ⟨d.status.value, hlog⟩
      · rw [ctrl_recall_failure s i now loc notes d hf hal] at hr
        exact ApiResult.noConfusion hr
  · intro s i notes now d' hr
    cases hf : getDeviceById s i with
    | none => simp [ctrl_reserve, hf] at hr
    | some d =>
      by_cases hal : d.status = DeviceStatus.in_stock
      · obtain ⟨-, -, hlog, -, -⟩ := ctrl_reserve_success s i now notes d hf hal
        exact ⟨d.status.value, hlog⟩
      · rw [ctrl_reserve_failure s i now notes d hf hal] at hr
        exact ApiResult.noConfusion hr
  · intro s i notes now d' hr
    cases hf : getDeviceById s i with
    | none => simp [ctrl_maintenance, hf] at hr
    | some d =>
      obtain ⟨-, -, hlog, -, -⟩ := ctrl_maintenance_success s i now notes d hf
      exact ⟨d.status.value, hlog⟩
  · intro s i newStatus loc notes now d' hr
    cases hf : getDeviceById s i with
    | none => simp [ctrl_update_status, hf] at hr
    | some d =>
      obtain ⟨-, -, hlog, -⟩ :=
        ctrl_update_status_success s i now newStatus loc notes d hf
      exact ⟨d.status.value, hlog⟩
  · intro s i now
    cases hf : getDeviceById s i <;>
      simp [ctrl_delete, delete_device, hf]
  · intro s i req now
    cases hf : getDeviceById s i <;>
      simp [ctrl_update, update_device, hf]

/-- Witness for the amended C6: a successful deploy over `stA` appends
    its matching log row, while a delete over `stA` appends none. -/
theorem claim_C6_amended_witness :
    (∃ old, (ctrl_deploy stA 1 "W" none 4).1.logs = stA.logs ++
      [⟨1, "deployed", some old, some "deployed", none, none⟩]) ∧
    (ctrl_delete stA 1 9).1.logs = stA.logs :=
  ⟨claim_C6_amended.2.1 stA 1 "W" none 4 (deployRow devA "W" 4) (by decide),
   claim_C6_amended.2.2.2.2.2.2.1 stA 1 9⟩

/-- Claim C7: telemetry for an unknown device fails 404; telemetry for a
    known but non-deployed device fails 400 with no publish (the store,
    events included, is untouched); and a publish happens only when the
    device exists and is currently deployed, in which case exactly the
    telemetry message is appended and the handler returns ok (500 if the
    broker refuses). -/
theorem claim_C7 (s : St) (i : Nat) (pubOk : Bool) :
    (getDeviceById s i = none →
      ctrl_receive_telemetry s i pubOk =
        (s, ApiResult.err ApiError.notFound)) ∧
    (∀ d, getDeviceById s i = some d → d.status ≠ DeviceStatus.deployed →
      ctrl_receive_telemetry s i pubOk =
        (s, ApiResult.err ApiError.badRequest)) ∧
    (∀ d, getDeviceById s i = some d → d.status = DeviceStatus.deployed →
      (ctrl_receive_telemetry s i pubOk).1.events =
        s.events ++ [⟨d.id, d.name, "telemetry"⟩] ∧
      (ctrl_receive_telemetry s i pubOk).1.devices = s.devices ∧
      (ctrl_receive_telemetry s i pubOk).1.logs = s.logs ∧
      (ctrl_receive_telemetry s i pubOk).2 =
        (if pubOk then ApiResult.ok () else ApiResult.err ApiError.internal)) ∧
    ((ctrl_receive_telemetry s i pubOk).1.events ≠ s.events →
      ∃ d, getDeviceById s i = some d ∧
        d.status = DeviceStatus.deployed) := by
  have hnotfound : getDeviceById s i = none →
      ctrl_receive_telemetry s i pubOk =
        (s, ApiResult.err ApiError.notFound) := by
    intro hf
    simp [ctrl_receive_telemetry, hf]
  have hbad : ∀ d, getDeviceById s i = some d →
      d.status ≠ DeviceStatus.deployed →
      ctrl_receive_telemetry s i pubOk =
        (s, ApiResult.err ApiError.badRequest) := by
    intro d hf hst
    have hb : (d.status == DeviceStatus.deployed) = false := by simpa using hst
    simp [ctrl_receive_telemetry, hf, hb]
  refine ⟨hnotfound, hbad, ?_, ?_⟩
  · intro d hf hst
    have hb : (d.status == DeviceStatus.deployed) = true := by simp [hst]
    cases pubOk <;> refine ⟨?_, ?_, ?_, ?_⟩ <;>
      simp [ctrl_receive_telemetry, hf, hb, publishEvent]
  · intro hne
    cases hf : getDeviceById s i with
    | none =>
      rw [hnotfound hf] at hne
      exact absurd rfl hne
    | some d =>
      by_cases hst : d.status = DeviceStatus.deployed
      · exact ⟨d, rfl, hst⟩
      · rw [hbad d hf hst] at hne
        exact absurd rfl hne

/-- A store holding one deployed device. -/
def stD : St := ⟨[{ devA with status := DeviceStatus.deployed }], [], [], 2⟩

/-- Witness for C7: unknown id gives 404, non-deployed device gives 400
    with nothing published, deployed device gets its telemetry published. -/
theorem claim_C7_witness :
    ctrl_receive_telemetry stA 2 true = (stA, ApiResult.err ApiError.notFound) ∧
    ctrl_receive_telemetry stA 1 true =
      (stA, ApiResult.err ApiError.badRequest) ∧
    (ctrl_receive_telemetry stD 1 true).1.events =
      stD.events ++ [⟨1, some "A", "telemetry"⟩] :=
  ⟨(claim_C7 stA 2 true).1 (by decide),
   (claim_C7 stA 1 true).2.1 devA (by decide) (by decide),
   ((claim_C7 stD 1 true).2.2.1 { devA with status := DeviceStatus.deployed }
      (by decide) (by decide)).1⟩

/-- Claim C10: the generic event endpoint publishes unconditionally — it
    holds no database session, so the store (devices, logs, id counter)
    is neither read nor written, no 404 can arise even for an unknown
    device id, one message built purely from the request is appended, and
    the outcome depends only on the broker's answer. -/
theorem claim_C10 (s : St) (i : Nat) (etype : String) (pubOk : Bool) :
    (ctrl_receive_event s i etype pubOk).1.devices = s.devices ∧
    (ctrl_receive_event s i etype pubOk).1.logs = s.logs ∧
    (ctrl_receive_event s i etype pubOk).1.nextId = s.nextId ∧
    (ctrl_receive_event s i etype pubOk).1.events =
      s.events ++ [⟨i, some ("Device-" ++ toString i), etype⟩] ∧
    (ctrl_receive_event s i etype pubOk).2 =
      (if pubOk then ApiResult.ok () else ApiResult.err ApiError.internal) ∧
    (ctrl_receive_event s i etype pubOk).2 ≠
      ApiResult.err ApiError.notFound := by
  cases pubOk <;> refine ⟨rfl, rfl, rfl, rfl, rfl, ?_⟩ <;>
    simp [ctrl_receive_event, publishEvent]

/-- Witness instance for C10 at a store that does not contain device 7:
    the publish still happens and no 404 arises. -/
theorem claim_C10_witness :
    (ctrl_receive_event stA 7 "alert" true).1.devices = stA.devices ∧
    (ctrl_receive_event stA 7 "alert" true).1.logs = stA.logs ∧
    (ctrl_receive_event stA 7 "alert" true).1.nextId = stA.nextId ∧
    (ctrl_receive_event stA 7 "alert" true).1.events =
      stA.events ++ [⟨7, some ("Device-" ++ toString 7), "alert"⟩] ∧
    (ctrl_receive_event stA 7 "alert" true).2 =
      (if true then ApiResult.ok () else ApiResult.err ApiError.internal) ∧
    (ctrl_receive_event stA 7 "alert" true).2 ≠
      ApiResult.err ApiError.notFound :=
  claim_C10 stA 7 "alert" true


/-- The row written by the field-update endpoint: all four allowed
    columns are overwritten with the request values (None for omitted
    fields included); everything else — id, type, serial_number, status,
    purchase_date, deploy_date, last_maintenance_date, created_at — is
    carried over from the old row (plus the `updated_at` bookkeeping). -/
def updateRow (d : Device) (req : UpdateRequest) (now : Nat) : Device :=
  { d with
      name := req.name, description := req.description,
      location := req.location, specifications := req.specifications,
      updated_at := now }

/-- Counterexample to claim C9 as stated: an update request that names
    only `description` (its `name` field is omitted, i.e. None) still
    mutates the stored `name` column, erasing "A" to None, because the
    controller forwards all four kwargs and the DAO assigns each one
    unconditionally. -/
theorem claim_C9_counterexample :
    (⟨none, some "NewDesc", none, none⟩ : UpdateRequest).name = none ∧
    (getDeviceById stA 1).map (fun d => d.name) = some (some "A") ∧
    ((getDeviceById
        (ctrl_update stA 1 ⟨none, some "NewDesc", none, none⟩ 5).1 1).map
      (fun d => d.name)) = some none := by
  decide

/-- Claim C9 as amended: update overwrites exactly the four allowed
    columns {name, description, location, specifications} with the
    request's values (None when omitted); all other columns are
    unchanged; a missing device yields 404 with the store untouched; no
    audit row or message is produced. -/
theorem claim_C9_amended (s : St) (i now : Nat) (req : UpdateRequest) :
    (getDeviceById s i = none →
      ctrl_update s i req now = (s, ApiResult.err ApiError.notFound)) ∧
    (∀ d, getDeviceById s i = some d →
      (ctrl_update s i req now).2 = ApiResult.ok (updateRow d req now) ∧
      (ctrl_update s i req now).1.devices =
        setDevice s.devices i (updateRow d req now) ∧
      getDeviceById (ctrl_update s i req now).1 i =
        some (updateRow d req now) ∧
      (ctrl_update s i req now).1.logs = s.logs ∧
      (ctrl_update s i req now).1.events = s.events ∧
      (ctrl_update s i req now).1.nextId = s.nextId) := by
  constructor
  · intro hf
    simp [ctrl_update, update_device, hf]
  · intro d hf
    have h1 : update_device s i
        [("name", req.name), ("description", req.description),
         ("location", req.location), ("specifications", req.specifications)]
        now =
        ({ s with devices := setDevice s.devices i (updateRow d req now) },
         some (updateRow d req now)) := by
      simp [update_device, hf, touch, updateRow, setField]
    have hdev : (ctrl_update s i req now).1.devices =
        setDevice s.devices i (updateRow d req now) := by
      simp [ctrl_update, h1]
    refine ⟨?_, hdev, ?_, ?_, ?_, ?_⟩
    · simp [ctrl_update, h1]
    · rw [getDeviceById, hdev]
      exact find?_setDevice s.devices i d _ hf rfl
    · simp [ctrl_update, h1]
    · simp [ctrl_update, h1]
    · simp [ctrl_update, h1]

/-- Witness for the amended C9: updating the stored device overwrites
    the four columns; updating an absent id yields 404. -/
theorem claim_C9_amended_witness :
    (ctrl_update stA 1 ⟨some "N", none, some "L", none⟩ 5).2 =
      ApiResult.ok (updateRow devA ⟨some "N", none, some "L", none⟩ 5) ∧
    ctrl_update stA 2 ⟨some "N", none, some "L", none⟩ 5 =
      (stA, ApiResult.err ApiError.notFound) :=
  ⟨((claim_C9_amended stA 1 5 ⟨some "N", none, some "L", none⟩).2 devA
      (by decide)).1,
   (claim_C9_amended stA 2 5 ⟨some "N", none, some "L", none⟩).1 (by decide)⟩

/-! ## Pagination (claim C8) -/

/-- Splitting a list into `n` windows of width `P` starting at offsets
    0, P, 2P, … recovers the list once `n * P` covers its length. -/
theorem join_pages_aux {α : Type} (P : Nat) :
    ∀ (n : Nat) (l : List α), l.length ≤ n * P →
      ((List.range n).map (fun j => (l.drop (j * P)).take P)).flatten = l := by
  intro n
  induction n with
  | zero =>
    intro l h
    have h0 : l.length = 0 := by simpa using h
    rw [List.length_eq_zero] at h0
    subst h0
    rfl
  | succ n ih =>
    intro l h
    rw [List.range_succ_eq_map, List.map_cons, List.flatten_cons, List.map_map]
    have hh : (l.drop (0 * P)).take P = l.take P := by simp
    rw [hh]
    have ht : (List.range n).map
        ((fun j => (l.drop (j * P)).take P) ∘ Nat.succ) =
        (List.range n).map (fun j => ((l.drop P).drop (j * P)).take P) := by
      apply List.map_congr_left
      intro j hj
      simp only [Function.comp_apply]
      rw [Nat.succ_mul, List.drop_drop, Nat.add_comm (j * P) P]
    rw [ht, ih (l.drop P) ?hlen]
    · exact List.take_append_drop P l
    case hlen =>
      rw [List.length_drop]
      rw [Nat.succ_mul] at h
      exact Nat.sub_le_iff_le_add.mpr h

/-- The ceiling page count covers the whole list. -/
theorem le_ceil_mul (a P : Nat) (hP : 0 < P) : a ≤ (a + P - 1) / P * P := by
  rcases Nat.eq_zero_or_pos a with rfl | ha
  · exact Nat.zero_le _
  · have h1 : a + P - 1 = (a - 1) + P := by omega
    rw [h1, Nat.add_div_right _ hP, Nat.add_mul, Nat.one_mul,
      Nat.mul_comm ((a - 1) / P) P]
    have h2 := Nat.div_add_mod (a - 1) P
    have h3 := Nat.mod_lt (a - 1) hP
    have h5 : a - 1 < P * ((a - 1) / P) + P := by
      calc a - 1 = P * ((a - 1) / P) + (a - 1) % P := h2.symm
        _ < P * ((a - 1) / P) + P := Nat.add_lt_add_left h3 _
    calc a = (a - 1) + 1 := (Nat.succ_pred_eq_of_pos ha).symm
      _ ≤ P * ((a - 1) / P) + P := Nat.succ_le_of_lt h5

/-- Splitting a list into its ceil(length / P) windows of width P
    recovers the list. -/
theorem join_pages {α : Type} (P : Nat) (hP : 0 < P) (l : List α) :
    ((List.range ((l.length + P - 1) / P)).map
      (fun j => (l.drop (j * P)).take P)).flatten = l :=
  join_pages_aux P _ l (le_ceil_mul l.length P hP)

/-- Claim C8: for any filter and any page size P ≥ 1, the returned total
    is the number of matching records whatever page is requested (pages
    past the end included); page k is the window of the matching records
    (in insertion order) at offset (k-1)·P; and the ceil(N/P) pages
    joined in order give back exactly the full matching set. -/
theorem claim_C8 (s : St) (stf : Option DeviceStatus)
    (tyf : Option DeviceType) (P k : Nat) (hP : 1 ≤ P) :
    (get_all_devices s stf tyf k P).2 =
      (s.devices.filter (matchesFilter stf tyf)).length ∧
    (get_all_devices s stf tyf k P).1 =
      ((s.devices.filter (matchesFilter stf tyf)).drop ((k - 1) * P)).take P ∧
    ((List.range
        (((s.devices.filter (matchesFilter stf tyf)).length + P - 1) / P)).map
      (fun j => (get_all_devices s stf tyf (j + 1) P).1)).flatten =
      s.devices.filter (matchesFilter stf tyf) := by
  refine ⟨rfl, rfl, ?_⟩
  exact join_pages P hP (s.devices.filter (matchesFilter stf tyf))

/-- Two more stored devices and a three-device store for the pagination
    witness. -/
def devB : Device :=
  ⟨2, some "B", DeviceType.actuator, "SN-2", none, none, none,
   DeviceStatus.deployed, some 0, none, none, 0, 0⟩

def devC : Device :=
  ⟨3, some "C", DeviceType.sensor, "SN-3", none, none, none,
   DeviceStatus.in_stock, some 0, none, none, 0, 0⟩

def st3 : St := ⟨[devA, devB, devC], [], [], 4⟩

/-- Witness for C8: three devices, page size 2, first page. -/
theorem claim_C8_witness :
    (get_all_devices st3 none none 1 2).2 =
      (st3.devices.filter (matchesFilter none none)).length ∧
    (get_all_devices st3 none none 1 2).1 =
      ((st3.devices.filter (matchesFilter none none)).drop ((1 - 1) * 2)).take
        2 ∧
    ((List.range
        (((st3.devices.filter (matchesFilter none none)).length + 2 - 1) /
          2)).map
      (fun j => (get_all_devices st3 none none (j + 1) 2).1)).flatten =
      st3.devices.filter (matchesFilter none none) :=
  claim_C8 st3 none none 2 1 (by decide)

end DeviceMgmt
